import Mathlib

/-!
Verification of the OpenProject TUI core (resource decoding and API request
construction) against its design specification.

The Python source (`src/models.py`, `src/client.py`) is shallowly embedded:
JSON values are an inductive type mirroring what Python's `json` module
produces (dicts keep insertion order, `int` and `float` are distinct,
floats are modelled as exact rationals), Python exceptions become an
explicit error type threaded through `Except`, and each decoder / request
builder is a pure Lean function translated line by line from the source.
-/

namespace OP

/-- Python exception kinds raised by the embedded code paths. -/
inductive PyErr where
  | keyError (key : String)
  | attrError
  | typeError
  | valueError (msg : String)
deriving DecidableEq, Repr

/-- JSON values as Python's `json` module produces them.  Object entries keep
insertion order (Python dicts).  `int` and `float` are distinct, as in Python;
float arithmetic is modelled as exact rational arithmetic. -/
inductive Json where
  | null
  | bool (b : Bool)
  | int (n : Int)
  | float (q : ℚ)
  | str (s : String)
  | arr (elems : List Json)
  | obj (entries : List (String × Json))
deriving Repr

mutual

/-- Structural equality on JSON values (used as the fallback of `pyEq` and to
derive decidable equality, which the deriving handler cannot build for this
nested inductive). -/
def Json.beq : Json → Json → Bool
  | .null, .null => true
  | .bool a, .bool b => a == b
  | .int a, .int b => a == b
  | .float a, .float b => a == b
  | .str a, .str b => a == b
  | .arr a, .arr b => Json.beqList a b
  | .obj a, .obj b => Json.beqEntries a b
  | _, _ => false

def Json.beqList : List Json → List Json → Bool
  | [], [] => true
  | a :: as, b :: bs => Json.beq a b && Json.beqList as bs
  | _, _ => false

def Json.beqEntries : List (String × Json) → List (String × Json) → Bool
  | [], [] => true
  | (k₁, v₁) :: as, (k₂, v₂) :: bs => k₁ == k₂ && Json.beq v₁ v₂ && Json.beqEntries as bs
  | _, _ => false

end

mutual

theorem Json.beq_iff : ∀ a b : Json, Json.beq a b = true ↔ a = b
  | .null, .null => by simp [Json.beq]
  | .bool a, .bool b => by simp [Json.beq]
  | .int a, .int b => by simp [Json.beq]
  | .float a, .float b => by simp [Json.beq]
  | .str a, .str b => by simp [Json.beq]
  | .arr a, .arr b => by
      simp only [Json.beq, Json.arr.injEq]
      exact Json.beqList_iff a b
  | .obj a, .obj b => by
      simp only [Json.beq, Json.obj.injEq]
      exact Json.beqEntries_iff a b
  | .null, .bool _ | .null, .int _ | .null, .float _ | .null, .str _ | .null, .arr _
  | .null, .obj _ | .bool _, .null | .bool _, .int _ | .bool _, .float _ | .bool _, .str _
  | .bool _, .arr _ | .bool _, .obj _ | .int _, .null | .int _, .bool _ | .int _, .float _
  | .int _, .str _ | .int _, .arr _ | .int _, .obj _ | .float _, .null | .float _, .bool _
  | .float _, .int _ | .float _, .str _ | .float _, .arr _ | .float _, .obj _
  | .str _, .null | .str _, .bool _ | .str _, .int _ | .str _, .float _ | .str _, .arr _
  | .str _, .obj _ | .arr _, .null | .arr _, .bool _ | .arr _, .int _ | .arr _, .float _
  | .arr _, .str _ | .arr _, .obj _ | .obj _, .null | .obj _, .bool _ | .obj _, .int _
  | .obj _, .float _ | .obj _, .str _ | .obj _, .arr _ => by simp [Json.beq]

theorem Json.beqList_iff : ∀ a b : List Json, Json.beqList a b = true ↔ a = b
  | [], [] => by simp [Json.beqList]
  | a :: as, b :: bs => by
      simp only [Json.beqList, Bool.and_eq_true, List.cons.injEq]
      exact and_congr (Json.beq_iff a b) (Json.beqList_iff as bs)
  | [], _ :: _ => by simp [Json.beqList]
  | _ :: _, [] => by simp [Json.beqList]

theorem Json.beqEntries_iff :
    ∀ a b : List (String × Json), Json.beqEntries a b = true ↔ a = b
  | [], [] => by simp [Json.beqEntries]
  | (k₁, v₁) :: as, (k₂, v₂) :: bs => by
      simp only [Json.beqEntries, Bool.and_eq_true, List.cons.injEq, Prod.mk.injEq]
      rw [Json.beq_iff v₁ v₂, Json.beqEntries_iff as bs, beq_iff_eq, and_assoc]
  | [], _ :: _ => by simp [Json.beqEntries]
  | _ :: _, [] => by simp [Json.beqEntries]

end

instance : DecidableEq Json := fun a b =>
  decidable_of_iff (Json.beq a b = true) (Json.beq_iff a b)

instance : BEq Json := ⟨Json.beq⟩

instance {ε α : Type _} [DecidableEq ε] [DecidableEq α] : DecidableEq (Except ε α)
  | .ok a, .ok b => decidable_of_iff (a = b) (by simp)
  | .error a, .error b => decidable_of_iff (a = b) (by simp)
  | .ok _, .error _ => isFalse (by simp)
  | .error _, .ok _ => isFalse (by simp)

/-- A Python dict holding decoded JSON, in insertion order. -/
abbrev Dict := List (String × Json)

/-- Python `d.get(k)`: the value stored under `k`, if any. -/
def dget (d : Dict) (k : String) : Option Json :=
  (d.find? (fun p => p.1 == k)).map (fun p => p.2)

/-- Python `d.get(k, default)`. -/
def dgetD (d : Dict) (k : String) (v : Json) : Json :=
  (dget d k).getD v

/-- Python `d[k]`: raises `KeyError` when the key is absent. -/
def pyGetItem (d : Dict) (k : String) : Except PyErr Json :=
  match dget d k with
  | some v => .ok v
  | none => .error (.keyError k)

/-- Python truthiness of a JSON value. -/
def truthy : Json → Bool
  | .null => false
  | .bool b => b
  | .int n => n != 0
  | .float q => q != 0
  | .str s => s != ""
  | .arr l => !l.isEmpty
  | .obj l => !l.isEmpty

/-- The numeric value of a JSON scalar, when it has one (Python treats `bool`
as an `int` subclass, so `True == 1`). -/
def jnum : Json → Option ℚ
  | .bool b => some (if b then 1 else 0)
  | .int n => some (n : ℚ)
  | .float q => some q
  | _ => none

/-- Python `==` on JSON values: numeric scalars compare by value across
`bool`/`int`/`float`; everything else compares structurally.  (Containers
holding mixed-representation numbers are not compared cross-type here; the
embedded code only ever compares scalars and strings.) -/
def pyEq (a b : Json) : Bool :=
  match jnum a, jnum b with
  | some x, some y => x == y
  | _, _ => a == b

/-- Python `str()` of the JSON scalars the embedded code interpolates into
messages (container and float reprs are not needed by any claim). -/
def pyStr : Json → String
  | .str s => s
  | .int n => toString n
  | .bool b => if b then "True" else "False"
  | .null => "None"
  | _ => ""

/-- The numeric value of a nonempty all-digit character list. -/
def digitsToNat : List Char → Option Nat
  | [] => none
  | l => if l.all Char.isDigit then
      some (l.foldl (fun a c => 10 * a + (c.toNat - 48)) 0)
    else none

/-- Python `s.split(sep)` for a one-character separator, at the character
level: maximal split, keeping empty pieces, never returning an empty list. -/
def pySplitChar (c : Char) : List Char → List (List Char)
  | [] => [[]]
  | x :: xs =>
    if x = c then [] :: pySplitChar c xs
    else
      match pySplitChar c xs with
      | ys :: rest => (x :: ys) :: rest
      | [] => [[x]]

/-- Python `s.rstrip(c)` at the character level. -/
def rstripChar (c : Char) (l : List Char) : List Char :=
  (l.reverse.dropWhile (· = c)).reverse

/-- Decimal literal (`"4"`, `"4.5"`) to an exact rational.  Python `float()`
also accepts exponents, leading dots and surrounding whitespace, which no
duration produced by the server or exercised by a claim uses. -/
def decimalToRat (l : List Char) : Option ℚ :=
  match pySplitChar '.' l with
  | [w] => (digitsToNat w).map (fun n => (n : ℚ))
  | [w, f] =>
    match digitsToNat w, digitsToNat f with
    | some a, some b => some ((a : ℚ) + (b : ℚ) / (10 : ℚ) ^ f.length)
    | _, _ => none
  | _ => none

/-- Python `float(s)`, raising `ValueError` on a non-numeric string.  Float
values are modelled as exact rationals. -/
def pyFloat (s : String) : Except PyErr ℚ :=
  match (match s.data with
         | '-' :: rest => (decimalToRat rest).map (fun q => -q)
         | l => decimalToRat l) with
  | some q => .ok q
  | none => .error (.valueError s)

/-- Python `int(s)`, `None` on failure.  (Python also strips whitespace and
accepts `_` digit separators; no href exercised by the code or claims uses
those forms.) -/
def pyInt (s : String) : Option Int :=
  match s.data with
  | [] => none
  | '-' :: rest => (digitsToNat rest).map (fun n => -(n : Int))
  | '+' :: rest => (digitsToNat rest).map (fun n => (n : Int))
  | l => (digitsToNat l).map (fun n => (n : Int))

/-- `datetime.fromisoformat(s.replace("Z", "+00:00"))`, modelled as the
normalized timestamp string.  `fromisoformat`'s format validation is not
modelled: no claim depends on date parsing, and every theorem that touches a
payload carrying a date field takes the decode's success as a hypothesis. -/
def pyFromIso (s : String) : Except PyErr String :=
  .ok (s.replace "Z" "+00:00")

/-- The shared `createdAt`/`updatedAt` decoding pattern of `models.py`:
`if s := data.get(k): parsed = datetime.fromisoformat(s.replace(...))`.
A present non-string value crashes at `.replace` (`AttributeError`). -/
def parseDateField (data : Dict) (k : String) : Except PyErr (Option String) :=
  let v := dgetD data k .null
  if truthy v then
    match v with
    | .str s => (pyFromIso s).map some
    | _ => .error .attrError
  else pure none

/-- The shared description-wrapper decoding pattern of `models.py`:
`if desc_data := data.get("description"): description = desc_data.get("raw", "")`.
A present truthy non-dict wrapper crashes at `.get` (`AttributeError`). -/
def parseDescriptionField (data : Dict) : Except PyErr Json :=
  let v := dgetD data "description" .null
  if truthy v then
    match v with
    | .obj dd => pure (dgetD dd "raw" (.str ""))
    | _ => .error .attrError
  else pure (Json.str "")

/-- Work package status (`models.Status`).  Field values are JSON values:
the Python dataclass performs no type validation of its arguments. -/
structure Status where
  id : Json
  name : Json
  color : Json := .null
deriving DecidableEq, Repr

/-- `Status.from_hal_json`: `id` and `name` are mandatory subscripts
(`KeyError` when absent), `color` defaults to `None`. -/
def Status.from_hal_json (data : Dict) : Except PyErr Status := do
  let id ← pyGetItem data "id"
  let name ← pyGetItem data "name"
  pure { id := id, name := name, color := dgetD data "color" .null }

/-- Work package type (`models.Type`; named `WPType` here because `Type` is a
Lean keyword). -/
structure WPType where
  id : Json
  name : Json
  color : Json := .null
deriving DecidableEq, Repr

/-- `Type.from_hal_json`. -/
def WPType.from_hal_json (data : Dict) : Except PyErr WPType := do
  let id ← pyGetItem data "id"
  let name ← pyGetItem data "name"
  pure { id := id, name := name, color := dgetD data "color" .null }

/-- Work package priority (`models.Priority`). -/
structure Priority where
  id : Json
  name : Json
deriving DecidableEq, Repr

/-- `Priority.from_hal_json`. -/
def Priority.from_hal_json (data : Dict) : Except PyErr Priority := do
  let id ← pyGetItem data "id"
  let name ← pyGetItem data "name"
  pure { id := id, name := name }

/-- User (`models.User`). -/
structure User where
  id : Json
  name : Json := .str ""
  email : Json := .null
  avatar_url : Json := .null
deriving DecidableEq, Repr

/-- `User.from_hal_json`: only `id` is a mandatory subscript; `name` defaults
to the empty string, `email` and `avatar` to `None`. -/
def User.from_hal_json (data : Dict) : Except PyErr User := do
  let id ← pyGetItem data "id"
  pure { id := id, name := dgetD data "name" (.str ""),
         email := dgetD data "email" .null, avatar_url := dgetD data "avatar" .null }

/-- Project (`models.Project`). -/
structure Project where
  id : Json
  identifier : Json
  name : Json
  active : Json := .bool true
  public : Json := .bool false
  description : Json := .str ""
  created_at : Option String := none
  updated_at : Option String := none
deriving DecidableEq, Repr

/-- `Project.from_hal_json`: description wrapper and the two timestamps are
computed first (as in the source), then the dataclass call subscripts `id`
and `name` (`KeyError` when absent) and defaults the rest. -/
def Project.from_hal_json (data : Dict) : Except PyErr Project := do
  let description ← parseDescriptionField data
  let created_at ← parseDateField data "createdAt"
  let updated_at ← parseDateField data "updatedAt"
  let id ← pyGetItem data "id"
  let identifier := dgetD data "identifier" (.str "")
  let name ← pyGetItem data "name"
  pure { id := id, identifier := identifier, name := name,
         active := dgetD data "active" (.bool true),
         public := dgetD data "public" (.bool false),
         description := description, created_at := created_at,
         updated_at := updated_at }

/-- Work package (`models.WorkPackage`). -/
structure WorkPackage where
  id : Json
  subject : Json
  description : Json := .str ""
  start_date : Json := .null
  due_date : Json := .null
  estimated_hours : Option ℚ := none
  percentage_done : Json := .int 0
  status : Option Status := none
  type : Option WPType := none
  priority : Option Priority := none
  project : Option Project := none
  author : Option User := none
  assignee : Option User := none
  created_at : Option String := none
  updated_at : Option String := none
  lock_version : Json := .null
deriving DecidableEq, Repr

/-- `WorkPackage._parse_iso_duration`: hours from the text before the first
`H`, the text after it continuing to the minutes part before the first `M`;
result `hours + minutes/60`.  A string not starting with `PT` (or empty)
yields `0.0`; a malformed numeric part raises `ValueError` via `float()`. -/
def WorkPackage._parse_iso_duration (duration : String) : Except PyErr ℚ :=
  match duration.data with
  | 'P' :: 'T' :: d =>
    (do
      let (hours, d2) ←
        if d.contains 'H' then do
          let h ← pyFloat (String.mk ((pySplitChar 'H' d).headD []))
          pure (h, (pySplitChar 'H' d).getD 1 [])
        else pure ((0 : ℚ), d)
      let minutes ←
        if d2.contains 'M' then pyFloat (String.mk ((pySplitChar 'M' d2).headD []))
        else pure (0 : ℚ)
      pure (hours + minutes / 60) : Except PyErr ℚ)
  | _ => .ok 0

/-- `WorkPackage._extract_id_from_href`: on a truthy href, strip trailing
slashes, split on `/` and parse the last segment with `int()`, returning
`None` on parse failure; falsy hrefs give `None`; a truthy non-string crashes
at `.rstrip` (`AttributeError`). -/
def WorkPackage._extract_id_from_href (href : Json) : Except PyErr (Option Int) :=
  if truthy href then
    match href with
    | .str s =>
      .ok (pyInt (String.mk ((pySplitChar '/' (rstripChar '/' s.data)).getLastD [])))
    | _ => .error .attrError
  else .ok none

/-- `WorkPackage._parse_status`: embedded data wins when truthy; otherwise a
truthy link whose href carries a truthy (nonzero) numeric id yields a degraded
`Status` named by the link `title` (default `"Status {id}"`), with no color. -/
def WorkPackage._parse_status (embedded_data link_data : Json) :
    Except PyErr (Option Status) :=
  if truthy embedded_data then
    match embedded_data with
    | .obj e => (Status.from_hal_json e).map some
    | _ => .error .typeError
  else if truthy link_data then
    match link_data with
    | .obj l => do
      match ← WorkPackage._extract_id_from_href (dgetD l "href" (.str "")) with
      | some i =>
        if i ≠ 0 then
          pure (some { id := .int i,
                       name := dgetD l "title" (.str ("Status " ++ toString i)),
                       color := .null })
        else pure none
      | none => pure none
    | _ => .error .attrError
  else pure none

/-- `WorkPackage._parse_type` (same dual-source rule as `_parse_status`). -/
def WorkPackage._parse_type (embedded_data link_data : Json) :
    Except PyErr (Option WPType) :=
  if truthy embedded_data then
    match embedded_data with
    | .obj e => (WPType.from_hal_json e).map some
    | _ => .error .typeError
  else if truthy link_data then
    match link_data with
    | .obj l => do
      match ← WorkPackage._extract_id_from_href (dgetD l "href" (.str "")) with
      | some i =>
        if i ≠ 0 then
          pure (some { id := .int i,
                       name := dgetD l "title" (.str ("Type " ++ toString i)),
                       color := .null })
        else pure none
      | none => pure none
    | _ => .error .attrError
  else pure none

/-- `WorkPackage._parse_priority` (same dual-source rule). -/
def WorkPackage._parse_priority (embedded_data link_data : Json) :
    Except PyErr (Option Priority) :=
  if truthy embedded_data then
    match embedded_data with
    | .obj e => (Priority.from_hal_json e).map some
    | _ => .error .typeError
  else if truthy link_data then
    match link_data with
    | .obj l => do
      match ← WorkPackage._extract_id_from_href (dgetD l "href" (.str "")) with
      | some i =>
        if i ≠ 0 then
          pure (some { id := .int i,
                       name := dgetD l "title" (.str ("Priority " ++ toString i)) })
        else pure none
      | none => pure none
    | _ => .error .attrError
  else pure none

/-- `WorkPackage._parse_project` (same dual-source rule; the degraded project
has an empty `identifier`, which a link cannot carry). -/
def WorkPackage._parse_project (embedded_data link_data : Json) :
    Except PyErr (Option Project) :=
  if truthy embedded_data then
    match embedded_data with
    | .obj e => (Project.from_hal_json e).map some
    | _ => .error .typeError
  else if truthy link_data then
    match link_data with
    | .obj l => do
      match ← WorkPackage._extract_id_from_href (dgetD l "href" (.str "")) with
      | some i =>
        if i ≠ 0 then
          pure (some { id := .int i, identifier := .str "",
                       name := dgetD l "title" (.str ("Project " ++ toString i)) })
        else pure none
      | none => pure none
    | _ => .error .attrError
  else pure none

/-- `WorkPackage._parse_user` (same dual-source rule; the degraded user has no
email or avatar). -/
def WorkPackage._parse_user (embedded_data link_data : Json) :
    Except PyErr (Option User) :=
  if truthy embedded_data then
    match embedded_data with
    | .obj e => (User.from_hal_json e).map some
    | _ => .error .typeError
  else if truthy link_data then
    match link_data with
    | .obj l => do
      match ← WorkPackage._extract_id_from_href (dgetD l "href" (.str "")) with
      | some i =>
        if i ≠ 0 then
          pure (some { id := .int i,
                       name := dgetD l "title" (.str ("User " ++ toString i)) })
        else pure none
      | none => pure none
    | _ => .error .attrError
  else pure none

/-- `WorkPackage.from_hal_json`, in source evaluation order: description
wrapper, `estimatedTime` (a present truthy non-string crashes at
`.startswith`), timestamps, `_embedded`/`_links` maps (defaulting to `{}`,
crashing at `.get` when a non-dict is present), the six relation parses, then
the dataclass call subscripting `id` and `subject` and defaulting the rest. -/
def WorkPackage.from_hal_json (data : Dict) : Except PyErr WorkPackage := do
  let description ← parseDescriptionField data
  let estimatedTime := dgetD data "estimatedTime" .null
  let estimated_hours ←
    if truthy estimatedTime then
      match estimatedTime with
      | .str s => (WorkPackage._parse_iso_duration s).map some
      | _ => .error .attrError
    else pure none
  let created_at ← parseDateField data "createdAt"
  let updated_at ← parseDateField data "updatedAt"
  let embObj ← match dgetD data "_embedded" (.obj []) with
    | .obj l => pure l
    | _ => .error .attrError
  let linkObj ← match dgetD data "_links" (.obj []) with
    | .obj l => pure l
    | _ => .error .attrError
  let status ← WorkPackage._parse_status (dgetD embObj "status" .null)
    (dgetD linkObj "status" .null)
  let type ← WorkPackage._parse_type (dgetD embObj "type" .null)
    (dgetD linkObj "type" .null)
  let priority ← WorkPackage._parse_priority (dgetD embObj "priority" .null)
    (dgetD linkObj "priority" .null)
  let project ← WorkPackage._parse_project (dgetD embObj "project" .null)
    (dgetD linkObj "project" .null)
  let author ← WorkPackage._parse_user (dgetD embObj "author" .null)
    (dgetD linkObj "author" .null)
  let assignee ← WorkPackage._parse_user (dgetD embObj "assignee" .null)
    (dgetD linkObj "assignee" .null)
  let id ← pyGetItem data "id"
  let subject ← pyGetItem data "subject"
  pure { id := id, subject := subject, description := description,
         start_date := dgetD data "startDate" .null,
         due_date := dgetD data "dueDate" .null,
         estimated_hours := estimated_hours,
         percentage_done := dgetD data "percentageDone" (.int 0),
         status := status, type := type, priority := priority,
         project := project, author := author, assignee := assignee,
         created_at := created_at, updated_at := updated_at,
         lock_version := dgetD data "lockVersion" .null }

/-- An HTTP request as the client builds it: method, path relative to the
configured base URL, query parameters and JSON body (`null` when none). -/
structure Request where
  method : String
  path : String
  params : Dict := []
  body : Json := .null
deriving DecidableEq, Repr

/-- The errors `client.py` defines and raises. -/
inductive ClientError where
  | authenticationError (msg : String)
  | apiError (msg : String)
deriving DecidableEq, Repr

/-- An HTTP response: status code plus decoded JSON body (`none` when the
body is not valid JSON, so that `response.json()` raises). -/
structure HttpResponse where
  status : Nat
  body : Option Json := none
deriving DecidableEq, Repr

/-- The 2xx success range (httpx `response.is_success`); `raise_for_status`
raises `HTTPStatusError` for every code outside it. -/
def is2xx (n : Nat) : Prop := 200 ≤ n ∧ n ≤ 299

instance (n : Nat) : Decidable (is2xx n) := by unfold is2xx; infer_instance

/-- The error-detail extraction shared by every handler in `client.py`:
a body with a `message` key contributes `": {message}"`; otherwise
`_embedded.errors` values have their `message`s joined with `", "`;
any failure inside the inner `try` (non-JSON body, wrong shapes) leaves
the detail empty. -/
def errorDetail (body : Option Json) : String :=
  match body with
  | some (.obj l) =>
    (match dget l "message" with
     | some m => ": " ++ pyStr m
     | none =>
       match dget l "_embedded" with
       | some (.obj emb) =>
         (match dget emb "errors" with
          | some (.obj errs) =>
            (match errs.foldr
                (fun p acc =>
                  match acc, p.2 with
                  | some msgs, .obj e =>
                    some (pyStr (dgetD e "message" (.str "")) :: msgs)
                  | _, _ => none)
                (some []) with
             | some msgs => ": " ++ String.intercalate ", " msgs
             | none => "")
          | _ => "")
       | _ => "")
  | _ => ""

/-- The response handling shared verbatim by `_get`, `_post` and `_patch`:
401 first (AuthenticationError), then `raise_for_status` (any other non-2xx
becomes an APIError carrying the status code and extracted detail), then
`response.json()` (whose failure on a 2xx response falls to the generic
handler). -/
def handleResponse (resp : HttpResponse) : Except ClientError Json :=
  if resp.status = 401 then
    .error (.authenticationError "Authentication failed. Please check your API key.")
  else if is2xx resp.status then
    match resp.body with
    | some j => .ok j
    | none => .error (.apiError "Request failed: invalid JSON body")
  else
    .error (.apiError
      ("API request failed (HTTP " ++ toString resp.status ++ ")"
        ++ errorDetail resp.body))

/-- `OpenProjectClient._get`: response classification (the request issuance
itself is transport). -/
def openProjectClientGetResult (resp : HttpResponse) : Except ClientError Json :=
  handleResponse resp

/-- `OpenProjectClient._post`: identical classification block. -/
def openProjectClientPostResult (resp : HttpResponse) : Except ClientError Json :=
  handleResponse resp

/-- `OpenProjectClient._patch`: identical classification block. -/
def openProjectClientPatchResult (resp : HttpResponse) : Except ClientError Json :=
  handleResponse resp

/-- `OpenProjectClient.test_connection`: same classification, but a 2xx
response returns `True` without reading the body. -/
def testConnectionResult (resp : HttpResponse) : Except ClientError Bool :=
  if resp.status = 401 then
    .error (.authenticationError "Authentication failed. Please check your API key.")
  else if is2xx resp.status then .ok true
  else
    .error (.apiError
      ("API request failed (HTTP " ++ toString resp.status ++ ")"
        ++ errorDetail resp.body))

/-- `json.dumps` of the one concrete filter list `get_projects` ever builds,
`[{"active": {"operator": "=", "values": ["t" | "f"]}}]`, with the default
separators. -/
def activeFilterDumps (active : Bool) : String :=
  "[\x7b\"active\": \x7b\"operator\": \"=\", \"values\": [\""
    ++ (if active then "t" else "f") ++ "\"]\x7d\x7d]"

/-- `OpenProjectClient.get_projects`: query parameters
`offset = (page-1)*page_size + 1` and `pageSize`, plus a `filters` parameter
present exactly when `active` was supplied. -/
def get_projects_request (active : Option Bool) (page page_size : Int) : Request :=
  let params : Dict :=
    [("offset", .int ((page - 1) * page_size + 1)), ("pageSize", .int page_size)]
  let params :=
    match active with
    | some b => params ++ [("filters", .str (activeFilterDumps b))]
    | none => params
  { method := "GET", path := "/projects", params := params }

/-- `OpenProjectClient.get_work_packages`: same pagination parameters; a
truthy `project_id` selects the project-scoped endpoint. -/
def get_work_packages_request (project_id : Option Int) (page page_size : Int) :
    Request :=
  { method := "GET"
    path :=
      match project_id with
      | some pid =>
        if pid ≠ 0 then "/projects/" ++ toString pid ++ "/work_packages"
        else "/work_packages"
      | none => "/work_packages"
    params :=
      [("offset", .int ((page - 1) * page_size + 1)), ("pageSize", .int page_size)] }

/-- `OpenProjectClient.create_work_package`: the POST body.  `subject` and the
`project`/`type` links are unconditional; `description`, `assignee`, `status`
and `priority` are added only when truthy (so `0` and `""` are dropped). -/
def create_work_package_request (project_id : Int) (subject : String)
    (type_id : Int) (description : Option String) (assignee_id : Option Int)
    (status_id : Option Int) (priority_id : Option Int) : Request :=
  let links : Dict :=
    [("project", .obj [("href", .str ("/api/v3/projects/" ++ toString project_id))]),
     ("type", .obj [("href", .str ("/api/v3/types/" ++ toString type_id))])]
    ++ (match assignee_id with
        | some a =>
          if a ≠ 0 then [("assignee", Json.obj [("href", Json.str ("/api/v3/users/" ++ toString a))])]
          else []
        | none => [])
    ++ (match status_id with
        | some s =>
          if s ≠ 0 then [("status", Json.obj [("href", Json.str ("/api/v3/statuses/" ++ toString s))])]
          else []
        | none => [])
    ++ (match priority_id with
        | some p =>
          if p ≠ 0 then [("priority", Json.obj [("href", Json.str ("/api/v3/priorities/" ++ toString p))])]
          else []
        | none => [])
  let data : Dict :=
    [("subject", .str subject), ("_links", .obj links)]
    ++ (match description with
        | some ds => if ds ≠ "" then [("description", Json.obj [("raw", Json.str ds)])] else []
        | none => [])
  { method := "POST", path := "/work_packages", body := .obj data }

/-- `OpenProjectClient.update_work_package`: the PATCH request.  Each field is
added only when the argument `is not None`; `assignee_id == 0` encodes an
explicit null assignee href; `_links` is added only when nonempty. -/
def update_work_package_request (work_package_id : Int)
    (subject description : Option String)
    (assignee_id status_id priority_id lock_version : Option Int) : Request :=
  let data : Dict :=
    (match lock_version with
     | some lv => [("lockVersion", Json.int lv)]
     | none => [])
    ++ (match subject with
        | some s => [("subject", Json.str s)]
        | none => [])
    ++ (match description with
        | some ds => [("description", Json.obj [("raw", Json.str ds)])]
        | none => [])
  let links : Dict :=
    (match assignee_id with
     | some a =>
       if a = 0 then [("assignee", Json.obj [("href", Json.null)])]
       else [("assignee", Json.obj [("href", Json.str ("/api/v3/users/" ++ toString a))])]
     | none => [])
    ++ (match status_id with
        | some s => [("status", Json.obj [("href", Json.str ("/api/v3/statuses/" ++ toString s))])]
        | none => [])
    ++ (match priority_id with
        | some p => [("priority", Json.obj [("href", Json.str ("/api/v3/priorities/" ++ toString p))])]
        | none => [])
  let data := if links.isEmpty then data else data ++ [("_links", Json.obj links)]
  { method := "PATCH", path := "/work_packages/" ++ toString work_package_id,
    body := .obj data }

/-- The key lookup into a request body object (`none` when the body is not an
object or lacks the key). -/
def bodyGet (r : Request) (k : String) : Option Json :=
  match r.body with
  | .obj l => dget l k
  | _ => none

/-- The `_links` object of a request body, as a dict (empty when absent). -/
def bodyLinks (r : Request) : Dict :=
  match bodyGet r "_links" with
  | some (.obj l) => l
  | _ => []

/-- Python `.get(k, default)` on a JSON value: `AttributeError` on a
non-dict. -/
def pyGetD (j : Json) (k : String) (d : Json) : Except PyErr Json :=
  match j with
  | .obj l => .ok (dgetD l k d)
  | _ => .error .attrError

/-- The `for status_data in allowed_values` loop of both status lookups:
keep dicts whose `_type == "Status"`, decoding each with
`Status.from_hal_json` (whose failure aborts the whole `try`). -/
def statusesFromAllowed (items : List Json) : Except PyErr (List Status) :=
  items.foldlM
    (fun acc it =>
      match it with
      | .obj o =>
        if pyEq (dgetD o "_type" .null) (.str "Status") then do
          let s ← Status.from_hal_json o
          pure (acc ++ [s])
        else pure acc
      | _ => pure acc)
    []

/-- Iterating a JSON value as Python `for x in v` does: lists yield elements,
dicts their keys, strings their characters; anything else raises
`TypeError`. -/
def pyIter (j : Json) : Except PyErr (List Json) :=
  match j with
  | .arr l => .ok l
  | .obj l => .ok (l.map (fun p => Json.str p.1))
  | .str s => .ok (s.data.map (fun c => Json.str (String.mk [c])))
  | _ => .error .typeError

/-- The `schema.status._embedded.allowedValues` extraction shared by
`get_available_statuses_for_new` and `get_available_status_transitions`,
composed with the decoding loop. -/
def extract_statuses (form : Json) : Except PyErr (List Status) := do
  let embedded ← pyGetD form "_embedded" (.obj [])
  let schema ← pyGetD embedded "schema" (.obj [])
  let status_schema ← pyGetD schema "status" (.obj [])
  let semb ← pyGetD status_schema "_embedded" (.obj [])
  let allowed ← pyGetD semb "allowedValues" (.arr [])
  let items ← pyIter allowed
  statusesFromAllowed items

/-- The current-status extraction of `get_available_status_transitions`:
`_embedded.payload._embedded.status`, kept only when truthy, a dict, and
tagged `_type == "Status"`. -/
def current_status_of (form : Json) : Except PyErr (Option Status) := do
  let embedded ← pyGetD form "_embedded" (.obj [])
  let payload ← pyGetD embedded "payload" (.obj [])
  let pemb ← pyGetD payload "_embedded" (.obj [])
  let current ← pyGetD pemb "status" .null
  if truthy current then
    match current with
    | .obj o =>
      if pyEq (dgetD o "_type" .null) (.str "Status") then
        (Status.from_hal_json o).map some
      else pure none
    | _ => pure none
  else pure none

/-- The whole form-processing step of `get_available_status_transitions`:
allowed statuses, then the current status inserted at the head when its id
matches none of them (`s.id == cur.id` is a Python `==`). -/
def transitions_from_form (form : Json) : Except PyErr (List Status) := do
  let statuses ← extract_statuses form
  match ← current_status_of form with
  | some cur =>
    if statuses.all (fun s => ¬ pyEq s.id cur.id) then pure (cur :: statuses)
    else pure statuses
  | none => pure statuses

/-- `OpenProjectClient.get_available_statuses_for_new`, as a function of the
form round-trip's outcome and of the full catalog `get_statuses` would
return: any exception, or an empty status list, falls back to the catalog. -/
def get_available_statuses_for_new (formResult : Except PyErr Json)
    (catalog : List Status) : List Status :=
  match formResult >>= extract_statuses with
  | .ok statuses => if statuses.isEmpty then catalog else statuses
  | .error _ => catalog

/-- `OpenProjectClient.get_available_status_transitions`, as a function of the
form round-trip's outcome and of the full catalog. -/
def get_available_status_transitions (formResult : Except PyErr Json)
    (catalog : List Status) : List Status :=
  match formResult >>= transitions_from_form with
  | .ok statuses => if statuses.isEmpty then catalog else statuses
  | .error _ => catalog

/-! ## Basic lookup lemmas -/

theorem dget_nil (k : String) : dget [] k = none := rfl

theorem dget_cons (k' : String) (v : Json) (d : Dict) (k : String) :
    dget ((k', v) :: d) k = if k' = k then some v else dget d k := by
  cases hb : k' == k with
  | true =>
    have he : k' = k := by simpa using hb
    simp [dget, List.find?, hb, he]
  | false =>
    have he : ¬ k' = k := by simpa using hb
    simp [dget, List.find?, hb, he]

theorem dget_append (l₁ l₂ : Dict) (k : String) :
    dget (l₁ ++ l₂) k = (dget l₁ k).or (dget l₂ k) := by
  induction l₁ with
  | nil => simp [dget_nil]
  | cons p t ih =>
    cases p
    rw [List.cons_append, dget_cons, dget_cons]
    split <;> simp [ih]

theorem ite_cons_nil {α : Type _} {c : Prop} [Decidable c] (x y : α)
    (l₁ l₂ : List α) : ((if c then x :: l₁ else y :: l₂) = []) ↔ False := by
  by_cases h : c <;> simp [h]

theorem ite_cons_isEmpty {α : Type _} {c : Prop} [Decidable c] (x y : α)
    (l₁ l₂ : List α) : (if c then x :: l₁ else y :: l₂ : List α).isEmpty = false := by
  by_cases h : c <;> simp [h]

theorem mk_data (s : String) : String.mk s.data = s := rfl

theorem pySplitChar_no_sep (c : Char) (l : List Char) (h : c ∉ l) :
    pySplitChar c l = [l] := by
  induction l with
  | nil => rfl
  | cons x xs ih =>
    have hx : ¬ (x = c) := fun he => h (he ▸ List.mem_cons_self x xs)
    have hxs : c ∉ xs := fun hm => h (List.mem_cons_of_mem _ hm)
    simp [pySplitChar, hx, ih hxs]

theorem pySplitChar_sep (c : Char) (l₁ l₂ : List Char) (h : c ∉ l₁) :
    pySplitChar c (l₁ ++ c :: l₂) = l₁ :: pySplitChar c l₂ := by
  induction l₁ with
  | nil => simp [pySplitChar]
  | cons x xs ih =>
    have hx : ¬ (x = c) := fun he => h (he ▸ List.mem_cons_self x xs)
    have hxs : c ∉ xs := fun hm => h (List.mem_cons_of_mem _ hm)
    simp [pySplitChar, hx, ih hxs]

theorem contains_append_cons (l₁ l₂ : List Char) (c : Char) :
    (l₁ ++ c :: l₂).contains c = true := by
  simp [List.contains_eq_any_beq]

theorem contains_eq_false_of_not_mem (l : List Char) (c : Char) (h : c ∉ l) :
    l.contains c = false := by
  induction l with
  | nil => rfl
  | cons x xs ih =>
    have hx : ¬ (x = c) := fun he => h (he ▸ List.mem_cons_self x xs)
    have hxs : c ∉ xs := fun hm => h (List.mem_cons_of_mem _ hm)
    simp [List.contains_cons, ih hxs, Ne.symm hx]
    exact hxs


/-- A successfully decoded work package carries exactly the payload's
`lockVersion` field (defaulted to `None` when absent). -/
theorem wp_decode_lock_version (d : Dict) (wp : WorkPackage)
    (h : WorkPackage.from_hal_json d = .ok wp) :
    wp.lock_version = dgetD d "lockVersion" .null := by
  unfold WorkPackage.from_hal_json at h
  simp only [bind, Except.bind, pure, Except.pure] at h
  repeat' split at h
  all_goals try exact (Except.noConfusion h)
  all_goals (injection h with h2; subst h2; rfl)

/-- A successfully decoded work package whose payload has no `estimatedTime`
field has no estimated hours. -/
theorem wp_decode_estimated_absent (d : Dict) (wp : WorkPackage)
    (habs : dget d "estimatedTime" = none)
    (h : WorkPackage.from_hal_json d = .ok wp) :
    wp.estimated_hours = none := by
  unfold WorkPackage.from_hal_json at h
  simp only [bind, Except.bind, pure, Except.pure, dgetD, habs, Option.getD] at h
  repeat' split at h
  all_goals try exact (Except.noConfusion h)
  all_goals (injection h with h2; subst h2; rfl)

/-! ## Claim theorems -/

/-- C9: for every `page ≥ 1` and `page_size`, `get_projects` and
`get_work_packages` send `offset = (page-1)*page_size + 1` and
`pageSize = page_size`, and the `filters` parameter of `get_projects` is
present exactly when the `active` flag was explicitly supplied. -/
theorem collection_request_params
    (active : Option Bool) (project_id : Option Int) (page page_size : Int)
    (_hpage : 1 ≤ page) :
    dget (get_projects_request active page page_size).params "offset"
        = some (.int ((page - 1) * page_size + 1))
    ∧ dget (get_projects_request active page page_size).params "pageSize"
        = some (.int page_size)
    ∧ ((dget (get_projects_request active page page_size).params "filters").isSome
        ↔ active.isSome)
    ∧ dget (get_work_packages_request project_id page page_size).params "offset"
        = some (.int ((page - 1) * page_size + 1))
    ∧ dget (get_work_packages_request project_id page page_size).params "pageSize"
        = some (.int page_size) := by
  cases active <;>
    simp [get_projects_request, get_work_packages_request,
      dget_append, dget_cons, dget_nil]

/-- Witness for C9: page 2 with page size 10 gives offset 11, and supplying
`active = true` makes the filters parameter present. -/
theorem collection_request_params_witness :
    (1 : Int) ≤ 2
    ∧ dget (get_projects_request (some true) 2 10).params "offset"
        = some (.int 11)
    ∧ (dget (get_projects_request (some true) 2 10).params "filters").isSome := by
  have h := collection_request_params (some true) none 2 10 (by norm_num)
  refine ⟨by norm_num, ?_, h.2.2.1.mpr (by simp)⟩
  rw [h.1]
  norm_num

/-- C7: in `update_work_package`, the sentinel `assignee_id = 0` produces an
explicit `_links.assignee` with a null href, a positive id produces the user
href, and an unsupplied assignee produces no assignee key anywhere in the
body. -/
theorem update_assignee_sentinel (wid : Int) (sub desc : Option String)
    (s p lv : Option Int) :
    dget (bodyLinks (update_work_package_request wid sub desc (some 0) s p lv))
        "assignee" = some (.obj [("href", .null)])
    ∧ (∀ i : Int, 0 < i →
        dget (bodyLinks (update_work_package_request wid sub desc (some i) s p lv))
            "assignee"
          = some (.obj [("href", .str ("/api/v3/users/" ++ toString i))]))
    ∧ bodyGet (update_work_package_request wid sub desc none s p lv) "assignee"
        = none
    ∧ dget (bodyLinks (update_work_package_request wid sub desc none s p lv))
        "assignee" = none := by
  refine ⟨?_, ?_, ?_, ?_⟩
  · cases sub <;> cases desc <;> cases s <;> cases p <;> cases lv <;>
      simp [update_work_package_request, bodyLinks, bodyGet,
        dget_append, dget_cons, dget_nil]
  · intro i hi
    have hne : ¬ (i = 0) := by omega
    cases sub <;> cases desc <;> cases s <;> cases p <;> cases lv <;>
      simp [update_work_package_request, bodyLinks, bodyGet,
        dget_append, dget_cons, dget_nil, hne]
  · cases sub <;> cases desc <;> cases s <;> cases p <;> cases lv <;>
      simp [update_work_package_request, bodyLinks, bodyGet,
        dget_append, dget_cons, dget_nil]
  · cases sub <;> cases desc <;> cases s <;> cases p <;> cases lv <;>
      simp [update_work_package_request, bodyLinks, bodyGet,
        dget_append, dget_cons, dget_nil]

/-- C2: `update_work_package` PATCHes the work package's own endpoint with a
partial body: unsupplied fields produce no key at all, a supplied
`lock_version` is sent as `lockVersion`, and the decoded result carries the
response's `lockVersion`. -/
theorem update_work_package_partial_patch (wid : Int) (sub desc : Option String)
    (a s p lv : Option Int) :
    (update_work_package_request wid sub desc a s p lv).method = "PATCH"
    ∧ (update_work_package_request wid sub desc a s p lv).path
        = "/work_packages/" ++ toString wid
    ∧ (sub = none →
        bodyGet (update_work_package_request wid sub desc a s p lv) "subject" = none)
    ∧ (desc = none →
        bodyGet (update_work_package_request wid sub desc a s p lv) "description"
          = none)
    ∧ (a = none →
        dget (bodyLinks (update_work_package_request wid sub desc a s p lv))
          "assignee" = none)
    ∧ (s = none →
        dget (bodyLinks (update_work_package_request wid sub desc a s p lv))
          "status" = none)
    ∧ (p = none →
        dget (bodyLinks (update_work_package_request wid sub desc a s p lv))
          "priority" = none)
    ∧ (∀ v : Int, lv = some v →
        bodyGet (update_work_package_request wid sub desc a s p lv) "lockVersion"
          = some (.int v))
    ∧ (∀ (resp : Dict) (wp : WorkPackage), WorkPackage.from_hal_json resp = .ok wp →
        wp.lock_version = dgetD resp "lockVersion" .null) := by
  refine ⟨rfl, rfl, ?_, ?_, ?_, ?_, ?_, ?_,
    fun resp wp h => wp_decode_lock_version resp wp h⟩
  · intro hx
    subst hx
    cases desc <;> cases a <;> cases s <;> cases p <;> cases lv <;>
      simp [update_work_package_request, bodyLinks, bodyGet, ite_cons_nil,
        ite_cons_isEmpty, dget_append, dget_cons, dget_nil]
  · intro hx
    subst hx
    cases sub <;> cases a <;> cases s <;> cases p <;> cases lv <;>
      simp [update_work_package_request, bodyLinks, bodyGet, ite_cons_nil,
        ite_cons_isEmpty, dget_append, dget_cons, dget_nil]
  · intro hx
    subst hx
    cases sub <;> cases desc <;> cases s <;> cases p <;> cases lv <;>
      simp [update_work_package_request, bodyLinks, bodyGet, ite_cons_nil,
        ite_cons_isEmpty, dget_append, dget_cons, dget_nil]
  · intro hx
    subst hx
    cases sub <;> cases desc <;> cases a <;> cases p <;> cases lv <;>
      simp [update_work_package_request, bodyLinks, bodyGet, ite_cons_nil,
        ite_cons_isEmpty, dget_append, dget_cons, dget_nil] <;>
      (repeat' split) <;>
      simp_all [dget_append, dget_cons, dget_nil]
  · intro hx
    subst hx
    cases sub <;> cases desc <;> cases a <;> cases s <;> cases lv <;>
      simp [update_work_package_request, bodyLinks, bodyGet, ite_cons_nil,
        ite_cons_isEmpty, dget_append, dget_cons, dget_nil] <;>
      (repeat' split) <;>
      simp_all [dget_append, dget_cons, dget_nil]
  · intro v hv
    subst hv
    cases sub <;> cases desc <;> cases a <;> cases s <;> cases p <;>
      simp [update_work_package_request, bodyLinks, bodyGet, ite_cons_nil,
        ite_cons_isEmpty, dget_append, dget_cons, dget_nil]

/-- Witness for C2: updating work package 123 with only `lockVersion = 1`
PATCHes `/work_packages/123` with a body whose only key is `lockVersion: 1`,
and decoding a response carrying `lockVersion: 2` yields that lock version. -/
theorem update_work_package_partial_patch_witness :
    (update_work_package_request 123 none none none none none (some 1)).path
        = "/work_packages/123"
    ∧ bodyGet (update_work_package_request 123 none none none none none (some 1))
        "lockVersion" = some (.int 1)
    ∧ bodyGet (update_work_package_request 123 none none none none none (some 1))
        "subject" = none
    ∧ ∃ wp : WorkPackage,
        WorkPackage.from_hal_json
            [("id", .int 123), ("subject", .str "S"), ("lockVersion", .int 2)]
          = .ok wp
        ∧ wp.lock_version = .int 2 := by
  have h := update_work_package_partial_patch 123 none none none none none (some 1)
  refine ⟨by decide, h.2.2.2.2.2.2.2.1 1 rfl, h.2.2.1 rfl, ?_⟩
  obtain ⟨wp, hwp⟩ : ∃ wp, WorkPackage.from_hal_json
      [("id", .int 123), ("subject", .str "S"), ("lockVersion", .int 2)] = .ok wp :=
    ⟨_, rfl⟩
  refine ⟨wp, hwp, ?_⟩
  rw [h.2.2.2.2.2.2.2.2 _ wp hwp]
  rfl

/-- C10: `create_work_package` drops every falsy optional argument from the
POST body (so `assignee_id = 0`, `status_id = 0`, `priority_id = 0` and an
empty description produce no key at all), and `_links` holds exactly the
`project` and `type` hrefs plus the truthy optional relations. -/
theorem create_work_package_falsy_omission (project_id : Int) (subject : String)
    (type_id : Int) (description : Option String) (a s p : Option Int) :
    (bodyGet (create_work_package_request project_id subject type_id description
          a s p) "description" = none
        ↔ (description = none ∨ description = some ""))
    ∧ (dget (bodyLinks (create_work_package_request project_id subject type_id
          description a s p)) "assignee" = none
        ↔ (a = none ∨ a = some 0))
    ∧ (dget (bodyLinks (create_work_package_request project_id subject type_id
          description a s p)) "status" = none
        ↔ (s = none ∨ s = some 0))
    ∧ (dget (bodyLinks (create_work_package_request project_id subject type_id
          description a s p)) "priority" = none
        ↔ (p = none ∨ p = some 0))
    ∧ dget (bodyLinks (create_work_package_request project_id subject type_id
          description a s p)) "project"
        = some (.obj [("href", .str ("/api/v3/projects/" ++ toString project_id))])
    ∧ dget (bodyLinks (create_work_package_request project_id subject type_id
          description a s p)) "type"
        = some (.obj [("href", .str ("/api/v3/types/" ++ toString type_id))])
    ∧ (bodyLinks (create_work_package_request project_id subject type_id
          description a s p)).map Prod.fst
        = ["project", "type"]
          ++ (match a with
              | some i => if i ≠ 0 then ["assignee"] else []
              | none => [])
          ++ (match s with
              | some i => if i ≠ 0 then ["status"] else []
              | none => [])
          ++ (match p with
              | some i => if i ≠ 0 then ["priority"] else []
              | none => []) := by
  refine ⟨?_, ?_, ?_, ?_, ?_, ?_, ?_⟩ <;>
  · cases description <;> cases a <;> cases s <;> cases p <;>
      simp [create_work_package_request, bodyLinks, bodyGet, ite_cons_nil,
        ite_cons_isEmpty, dget_append, dget_cons, dget_nil] <;>
      (repeat' split) <;>
      simp_all [dget_append, dget_cons, dget_nil]

/-- C8: error classification is uniform across `_get`, `_post`, `_patch` and
`test_connection`: a 401 response always raises `AuthenticationError` (never
converted to an `APIError`), and every other non-2xx response raises an
`APIError` whose message contains the HTTP status code and, when extractable,
the server's structured error message. -/
theorem error_classification_uniform (resp : HttpResponse) :
    (resp.status = 401 →
      openProjectClientGetResult resp
          = .error (.authenticationError
              "Authentication failed. Please check your API key.")
        ∧ openProjectClientPostResult resp
          = .error (.authenticationError
              "Authentication failed. Please check your API key.")
        ∧ openProjectClientPatchResult resp
          = .error (.authenticationError
              "Authentication failed. Please check your API key.")
        ∧ testConnectionResult resp
          = .error (.authenticationError
              "Authentication failed. Please check your API key."))
    ∧ (resp.status ≠ 401 → ¬ is2xx resp.status →
      ∃ m : String,
        openProjectClientGetResult resp = .error (.apiError m)
        ∧ openProjectClientPostResult resp = .error (.apiError m)
        ∧ openProjectClientPatchResult resp = .error (.apiError m)
        ∧ testConnectionResult resp = .error (.apiError m)
        ∧ (toString resp.status).data <:+: m.data
        ∧ (∀ (l : Dict) (s : String), resp.body = some (.obj l) →
            dget l "message" = some (.str s) → s.data <:+: m.data)) := by
  constructor
  · intro h401
    refine ⟨?_, ?_, ?_, ?_⟩ <;>
      simp [openProjectClientGetResult, openProjectClientPostResult,
        openProjectClientPatchResult, testConnectionResult, handleResponse, h401]
  · intro hne h2xx
    refine ⟨"API request failed (HTTP " ++ toString resp.status ++ ")"
        ++ errorDetail resp.body, ?_, ?_, ?_, ?_, ?_, ?_⟩
    · simp [openProjectClientGetResult, handleResponse, hne, h2xx]
    · simp [openProjectClientPostResult, handleResponse, hne, h2xx]
    · simp [openProjectClientPatchResult, handleResponse, hne, h2xx]
    · simp [testConnectionResult, hne, h2xx]
    · refine ⟨"API request failed (HTTP ".data, ")".data ++ (errorDetail resp.body).data, ?_⟩
      simp [String.data_append]
    · intro l s hbody hmsg
      have hdetail : errorDetail (some (.obj l)) = ": " ++ s := by
        simp [errorDetail, hmsg, pyStr]
      rw [hbody, hdetail]
      refine ⟨("API request failed (HTTP " ++ toString resp.status ++ ")").data
          ++ ": ".data, [], ?_⟩
      simp [String.data_append]

/-- Witness for C8: a 401 is an authentication failure; a 500 with a server
message is an API error whose text contains both the code and the message. -/
theorem error_classification_uniform_witness :
    ((401 : Nat) = 401
      ∧ openProjectClientGetResult ⟨401, none⟩
        = .error (.authenticationError
            "Authentication failed. Please check your API key."))
    ∧ ((500 : Nat) ≠ 401 ∧ ¬ is2xx 500
      ∧ ∃ m : String,
          openProjectClientGetResult ⟨500, some (.obj [("message", .str "boom")])⟩
              = .error (.apiError m)
            ∧ (toString (500 : Nat)).data <:+: m.data
            ∧ "boom".data <:+: m.data) := by
  have h1 := (error_classification_uniform ⟨401, none⟩).1 rfl
  have h2 := (error_classification_uniform
    ⟨500, some (.obj [("message", .str "boom")])⟩).2 (by decide) (by decide)
  obtain ⟨m, hg, _, _, _, hinf, hmsg⟩ := h2
  exact ⟨⟨rfl, h1.1⟩, by decide, by decide,
    ⟨m, hg, hinf, hmsg [("message", .str "boom")] "boom" rfl (by decide)⟩⟩

/-- C3: ISO-8601 `PT<h>H<m>M`, `PT<h>H` and `PT<m>M` durations decode to
exactly `h + m/60` fractional hours (a missing component contributing 0), and
a payload without `estimatedTime` decodes with no estimated hours, never 0. -/
theorem iso_duration_exact (hs ms : String) (qh qm : ℚ)
    (hh : pyFloat hs = .ok qh) (hm : pyFloat ms = .ok qm)
    (hsH : 'H' ∉ hs.data) (hmH : 'H' ∉ ms.data) (hmM : 'M' ∉ ms.data) :
    WorkPackage._parse_iso_duration ("PT" ++ hs ++ "H" ++ ms ++ "M")
        = .ok (qh + qm / 60)
    ∧ WorkPackage._parse_iso_duration ("PT" ++ hs ++ "H") = .ok qh
    ∧ WorkPackage._parse_iso_duration ("PT" ++ ms ++ "M") = .ok (qm / 60)
    ∧ (∀ (d : Dict) (wp : WorkPackage), dget d "estimatedTime" = none →
        WorkPackage.from_hal_json d = .ok wp → wp.estimated_hours = none) := by
  refine ⟨?_, ?_, ?_, fun d wp habs h => wp_decode_estimated_absent d wp habs h⟩
  · have hd : ("PT" ++ hs ++ "H" ++ ms ++ "M").data
        = 'P' :: 'T' :: (hs.data ++ 'H' :: (ms.data ++ ['M'])) := by
      simp [String.data_append]
    have hnH : 'H' ∉ ms.data ++ ['M'] := by simp [hmH]
    have hc1 := contains_append_cons hs.data (ms.data ++ ['M']) 'H'
    have hsplit1 := pySplitChar_sep 'H' hs.data (ms.data ++ ['M']) hsH
    have hsplit2 := pySplitChar_no_sep 'H' (ms.data ++ ['M']) hnH
    have hc2 : (ms.data ++ ['M']).contains 'M' = true :=
      contains_append_cons ms.data ([] : List Char) 'M'
    have hsplit3 : pySplitChar 'M' (ms.data ++ ['M']) = ms.data :: pySplitChar 'M' [] := by
      simpa using pySplitChar_sep 'M' ms.data ([] : List Char) hmM
    have hmem2 : 'M' ∈ ms.data ++ ['M'] := by simp
    unfold WorkPackage._parse_iso_duration
    rw [hd]
    simp [hc1, hsplit1, hsplit2, hc2, hsplit3, pySplitChar, mk_data, hh, hm,
      hmem2, bind, Except.bind, pure, Except.pure]
  · have hd : ("PT" ++ hs ++ "H").data = 'P' :: 'T' :: (hs.data ++ 'H' :: []) := by
      simp [String.data_append]
    have hc1 := contains_append_cons hs.data ([] : List Char) 'H'
    have hsplit1 := pySplitChar_sep 'H' hs.data ([] : List Char) hsH
    unfold WorkPackage._parse_iso_duration
    rw [hd]
    simp [hc1, hsplit1, pySplitChar, mk_data, hh, bind, Except.bind, pure,
      Except.pure]
  · have hd : ("PT" ++ ms ++ "M").data = 'P' :: 'T' :: (ms.data ++ 'M' :: []) := by
      simp [String.data_append]
    have hnH2 : 'H' ∉ ms.data ++ ['M'] := by simp [hmH]
    have hcH : (ms.data ++ ['M']).contains 'H' = false :=
      contains_eq_false_of_not_mem _ _ hnH2
    have hc2 : (ms.data ++ ['M']).contains 'M' = true :=
      contains_append_cons ms.data ([] : List Char) 'M'
    have hsplit3 : pySplitChar 'M' (ms.data ++ ['M']) = ms.data :: pySplitChar 'M' [] := by
      simpa using pySplitChar_sep 'M' ms.data ([] : List Char) hmM
    have hmem2 : 'M' ∈ ms.data ++ ['M'] := by simp
    unfold WorkPackage._parse_iso_duration
    rw [hd]
    simp [hcH, hc2, hsplit3, pySplitChar, mk_data, hm, hnH2, hmem2, bind,
      Except.bind, pure, Except.pure]

/-- Witness for C3: `PT4H30M` decodes to 4.5 hours, `PT30M` to 0.5, and a
payload without `estimatedTime` to none. -/
theorem iso_duration_exact_witness :
    pyFloat "4" = .ok ((4 : ℕ) : ℚ)
    ∧ WorkPackage._parse_iso_duration "PT4H30M" = .ok (9/2)
    ∧ WorkPackage._parse_iso_duration "PT30M" = .ok (1/2)
    ∧ (∀ wp : WorkPackage,
        WorkPackage.from_hal_json [("id", .int 1), ("subject", .str "S")] = .ok wp →
        wp.estimated_hours = none) := by
  have h4 : pyFloat "4" = .ok ((4 : ℕ) : ℚ) := rfl
  have h30 : pyFloat "30" = .ok ((30 : ℕ) : ℚ) := rfl
  have h := iso_duration_exact "4" "30" _ _ h4 h30 (by decide) (by decide) (by decide)
  refine ⟨h4, ?_, ?_, fun wp hwp => h.2.2.2 [("id", .int 1), ("subject", .str "S")] wp rfl hwp⟩
  · have h1 := h.1
    rw [show "PT" ++ "4" ++ "H" ++ "30" ++ "M" = "PT4H30M" from rfl] at h1
    rw [h1]
    simp only [Except.ok.injEq]
    norm_num
  · have h3 := h.2.2.1
    rw [show "PT" ++ "30" ++ "M" = "PT30M" from rfl] at h3
    rw [h3]
    simp only [Except.ok.injEq]
    norm_num

/-- Witness for C7: updating work package 123 with the sentinel, with a
positive id, and with no assignee argument. -/
theorem update_assignee_sentinel_witness :
    dget (bodyLinks (update_work_package_request 123 none none (some 0) none none
        (some 1))) "assignee" = some (.obj [("href", .null)])
    ∧ dget (bodyLinks (update_work_package_request 123 none none (some 9) none none
        (some 1))) "assignee" = some (.obj [("href", .str "/api/v3/users/9")])
    ∧ bodyGet (update_work_package_request 123 none none none none none (some 1))
        "assignee" = none := by
  have h1 := update_assignee_sentinel 123 none none none none (some 1)
  refine ⟨h1.1, ?_, h1.2.2.1⟩
  have h2 := h1.2.1 9 (by norm_num)
  simpa using h2

/-- C5: when the form payload of an existing work package embeds a current
status whose id (by Python equality) occurs nowhere in the schema's
`allowedValues`, the returned transition list is the current status followed
by the allowed transitions in server order. -/
theorem current_status_heads_transitions (form : Json) (catalog L : List Status)
    (cur : Status)
    (hL : extract_statuses form = .ok L)
    (hcur : current_status_of form = .ok (some cur))
    (hnot : ∀ s ∈ L, pyEq s.id cur.id = false) :
    get_available_status_transitions (.ok form) catalog = cur :: L := by
  have hall : (L.all fun s => ¬ pyEq s.id cur.id) = true := by
    simp only [List.all_eq_true, decide_eq_true_eq]
    intro s hs
    simp [hnot s hs]
  unfold get_available_status_transitions transitions_from_form
  simp [bind, Except.bind, hL, hcur, hall, pure, Except.pure]
  rw [if_pos hnot]
  simp

/-- C6 (amended): both form-based status lookups return the unfiltered
catalog when the form round-trip or its processing fails, and
`get_available_statuses_for_new` also does so when the allowed values yield
no statuses; `get_available_status_transitions` falls back on an empty final
list, but when the allowed values are empty and a current status is embedded
it returns just that current status instead of the catalog. -/
theorem form_lookup_fallback :
    (∀ (e : PyErr) (catalog : List Status),
        get_available_statuses_for_new (.error e) catalog = catalog)
    ∧ (∀ (form : Json) (catalog : List Status),
        extract_statuses form = .ok [] →
        get_available_statuses_for_new (.ok form) catalog = catalog)
    ∧ (∀ (e : PyErr) (catalog : List Status),
        get_available_status_transitions (.error e) catalog = catalog)
    ∧ (∀ (form : Json) (catalog : List Status) (e : PyErr),
        transitions_from_form form = .error e →
        get_available_status_transitions (.ok form) catalog = catalog)
    ∧ (∀ (form : Json) (catalog : List Status),
        transitions_from_form form = .ok [] →
        get_available_status_transitions (.ok form) catalog = catalog)
    ∧ (∀ (form : Json) (catalog : List Status) (cur : Status),
        extract_statuses form = .ok [] →
        current_status_of form = .ok (some cur) →
        get_available_status_transitions (.ok form) catalog = [cur]) := by
  refine ⟨fun e catalog => rfl, ?_, fun e catalog => rfl, ?_, ?_, ?_⟩
  · intro form catalog h
    unfold get_available_statuses_for_new
    simp [bind, Except.bind, h]
  · intro form catalog e h
    unfold get_available_status_transitions
    simp [bind, Except.bind, h]
  · intro form catalog h
    unfold get_available_status_transitions
    simp [bind, Except.bind, h]
  · intro form catalog cur hL hcur
    unfold get_available_status_transitions transitions_from_form
    simp [bind, Except.bind, hL, hcur, pure, Except.pure]

/-- Witness for C5: a form allowing transitions to statuses 2 and 3 with
embedded current status 1 yields the list `[1, 2, 3]`. -/
theorem current_status_heads_transitions_witness :
    extract_statuses (Json.obj [("_embedded", Json.obj [
        ("schema", Json.obj [("status", Json.obj [("_embedded", Json.obj
          [("allowedValues", Json.arr [
            Json.obj [("_type", Json.str "Status"), ("id", Json.int 2),
              ("name", Json.str "In progress")],
            Json.obj [("_type", Json.str "Status"), ("id", Json.int 3),
              ("name", Json.str "Closed")]])])])]),
        ("payload", Json.obj [("_embedded", Json.obj [("status", Json.obj
          [("_type", Json.str "Status"), ("id", Json.int 1),
            ("name", Json.str "New")])])])])])
      = .ok [⟨.int 2, .str "In progress", .null⟩, ⟨.int 3, .str "Closed", .null⟩]
    ∧ get_available_status_transitions (.ok (Json.obj [("_embedded", Json.obj [
        ("schema", Json.obj [("status", Json.obj [("_embedded", Json.obj
          [("allowedValues", Json.arr [
            Json.obj [("_type", Json.str "Status"), ("id", Json.int 2),
              ("name", Json.str "In progress")],
            Json.obj [("_type", Json.str "Status"), ("id", Json.int 3),
              ("name", Json.str "Closed")]])])])]),
        ("payload", Json.obj [("_embedded", Json.obj [("status", Json.obj
          [("_type", Json.str "Status"), ("id", Json.int 1),
            ("name", Json.str "New")])])])])])) []
      = [⟨.int 1, .str "New", .null⟩, ⟨.int 2, .str "In progress", .null⟩,
         ⟨.int 3, .str "Closed", .null⟩] := by
  refine ⟨by decide, ?_⟩
  exact current_status_heads_transitions _ [] _ _ (by decide) (by decide) (by decide)

/-- Witness for C6: a failed form round-trip and an empty form both fall
back to the catalog. -/
theorem form_lookup_fallback_witness :
    get_available_statuses_for_new (.error .attrError)
        [⟨.int 9, .str "Closed", .null⟩] = [⟨.int 9, .str "Closed", .null⟩]
    ∧ extract_statuses (Json.obj []) = .ok []
    ∧ get_available_statuses_for_new (.ok (Json.obj []))
        [⟨.int 9, .str "Closed", .null⟩] = [⟨.int 9, .str "Closed", .null⟩]
    ∧ get_available_status_transitions (.error .attrError)
        [⟨.int 9, .str "Closed", .null⟩] = [⟨.int 9, .str "Closed", .null⟩] := by
  have h := form_lookup_fallback
  exact ⟨h.1 .attrError _, by decide, h.2.1 (Json.obj []) _ (by decide),
    h.2.2.1 .attrError _⟩

/-- Counterexample for C6 as stated: a form whose `allowedValues` yield no
statuses but whose payload embeds current status 1 makes
`get_available_status_transitions` return `[status 1]`, not the unfiltered
catalog. -/
theorem form_lookup_fallback_counterexample :
    extract_statuses (Json.obj [("_embedded", Json.obj [
        ("payload", Json.obj [("_embedded", Json.obj [("status", Json.obj
          [("_type", Json.str "Status"), ("id", Json.int 1),
            ("name", Json.str "New")])])])])]) = .ok []
    ∧ get_available_status_transitions (.ok (Json.obj [("_embedded", Json.obj [
        ("payload", Json.obj [("_embedded", Json.obj [("status", Json.obj
          [("_type", Json.str "Status"), ("id", Json.int 1),
            ("name", Json.str "New")])])])])]))
        [⟨.int 9, .str "Closed", .null⟩]
      = [⟨.int 1, .str "New", .null⟩]
    ∧ get_available_status_transitions (.ok (Json.obj [("_embedded", Json.obj [
        ("payload", Json.obj [("_embedded", Json.obj [("status", Json.obj
          [("_type", Json.str "Status"), ("id", Json.int 1),
            ("name", Json.str "New")])])])])]))
        [⟨.int 9, .str "Closed", .null⟩]
      ≠ [⟨.int 9, .str "Closed", .null⟩] := by
  exact ⟨by decide, by decide, by decide⟩


theorem Status_from_hal_id_name (e : Dict) (st : Status) (v w : Json)
    (hid : dget e "id" = some v) (hname : dget e "name" = some w)
    (h : Status.from_hal_json e = .ok st) : st.id = v ∧ st.name = w := by
  unfold Status.from_hal_json pyGetItem at h
  rw [hid, hname] at h
  simp [bind, Except.bind, pure, Except.pure] at h
  exact ⟨by rw [← h], by rw [← h]⟩

theorem Project_from_hal_id_name (e : Dict) (pr : Project) (v w : Json)
    (hid : dget e "id" = some v) (hname : dget e "name" = some w)
    (h : Project.from_hal_json e = .ok pr) : pr.id = v ∧ pr.name = w := by
  unfold Project.from_hal_json pyGetItem at h
  rw [hid, hname] at h
  simp only [bind, Except.bind, pure, Except.pure] at h
  repeat' split at h
  all_goals try exact (Except.noConfusion h)
  all_goals (injection h with h2; subst h2; exact ⟨rfl, rfl⟩)

theorem parse_status_link_only (l : Dict) (i : Int) (nm : Json) (href : String)
    (hnz : i ≠ 0)
    (hhref : dget l "href" = some (.str href))
    (hex : WorkPackage._extract_id_from_href (.str href) = .ok (some i))
    (htitle : dget l "title" = some nm) :
    WorkPackage._parse_status .null (.obj l) = .ok (some ⟨.int i, nm, .null⟩) := by
  have hln : l ≠ [] := by
    intro hl
    rw [hl] at hhref
    simp [dget] at hhref
  have htr : truthy (.obj l) = true := by
    cases l with
    | nil => exact absurd rfl hln
    | cons a t => simp [truthy]
  unfold WorkPackage._parse_status
  simp only [truthy, htr, if_true, if_false, Bool.false_eq_true, ite_false]
  simp [dgetD, hhref, hex, hnz, htitle, bind, Except.bind, pure, Except.pure, htr]
  exact hln

theorem parse_status_embedded (e : Dict) (lAny : Json) (st : Status)
    (hne : e ≠ [])
    (hE : WorkPackage._parse_status (.obj e) lAny = .ok (some st)) :
    Status.from_hal_json e = .ok st := by
  have htr : truthy (.obj e) = true := by
    cases e with
    | nil => exact absurd rfl hne
    | cons a t => simp [truthy]
  unfold WorkPackage._parse_status at hE
  simp only [htr, if_true] at hE
  cases hfe : Status.from_hal_json e with
  | error err => rw [hfe] at hE; simp [Except.map] at hE
  | ok v => rw [hfe] at hE; simp [Except.map] at hE; rw [hE]

theorem WPType_from_hal_id_name (e : Dict) (x : WPType) (v w : Json)
    (hid : dget e "id" = some v) (hname : dget e "name" = some w)
    (h : WPType.from_hal_json e = .ok x) : x.id = v ∧ x.name = w := by
  unfold WPType.from_hal_json pyGetItem at h
  rw [hid, hname] at h
  simp [bind, Except.bind, pure, Except.pure] at h
  exact ⟨by rw [← h], by rw [← h]⟩

theorem Priority_from_hal_id_name (e : Dict) (x : Priority) (v w : Json)
    (hid : dget e "id" = some v) (hname : dget e "name" = some w)
    (h : Priority.from_hal_json e = .ok x) : x.id = v ∧ x.name = w := by
  unfold Priority.from_hal_json pyGetItem at h
  rw [hid, hname] at h
  simp [bind, Except.bind, pure, Except.pure] at h
  exact ⟨by rw [← h], by rw [← h]⟩

theorem User_from_hal_id_name (e : Dict) (x : User) (v w : Json)
    (hid : dget e "id" = some v) (hname : dget e "name" = some w)
    (h : User.from_hal_json e = .ok x) : x.id = v ∧ x.name = w := by
  unfold User.from_hal_json pyGetItem at h
  rw [hid] at h
  simp [bind, Except.bind, pure, Except.pure, dgetD, hname] at h
  exact ⟨by rw [← h], by rw [← h]⟩

theorem parse_type_link_only (l : Dict) (i : Int) (nm : Json) (href : String)
    (hnz : i ≠ 0)
    (hhref : dget l "href" = some (.str href))
    (hex : WorkPackage._extract_id_from_href (.str href) = .ok (some i))
    (htitle : dget l "title" = some nm) :
    WorkPackage._parse_type .null (.obj l) = .ok (some ⟨.int i, nm, .null⟩) := by
  have hln : l ≠ [] := by
    intro hl
    rw [hl] at hhref
    simp [dget] at hhref
  have htr : truthy (.obj l) = true := by
    cases l with
    | nil => exact absurd rfl hln
    | cons a t => simp [truthy]
  unfold WorkPackage._parse_type
  simp only [truthy, htr, if_true, if_false, Bool.false_eq_true, ite_false]
  simp [dgetD, hhref, hex, hnz, htitle, bind, Except.bind, pure, Except.pure, htr]
  exact hln

theorem parse_priority_link_only (l : Dict) (i : Int) (nm : Json) (href : String)
    (hnz : i ≠ 0)
    (hhref : dget l "href" = some (.str href))
    (hex : WorkPackage._extract_id_from_href (.str href) = .ok (some i))
    (htitle : dget l "title" = some nm) :
    WorkPackage._parse_priority .null (.obj l) = .ok (some ⟨.int i, nm⟩) := by
  have hln : l ≠ [] := by
    intro hl
    rw [hl] at hhref
    simp [dget] at hhref
  have htr : truthy (.obj l) = true := by
    cases l with
    | nil => exact absurd rfl hln
    | cons a t => simp [truthy]
  unfold WorkPackage._parse_priority
  simp only [truthy, htr, if_true, if_false, Bool.false_eq_true, ite_false]
  simp [dgetD, hhref, hex, hnz, htitle, bind, Except.bind, pure, Except.pure, htr]
  exact hln

theorem parse_project_link_only (l : Dict) (i : Int) (nm : Json) (href : String)
    (hnz : i ≠ 0)
    (hhref : dget l "href" = some (.str href))
    (hex : WorkPackage._extract_id_from_href (.str href) = .ok (some i))
    (htitle : dget l "title" = some nm) :
    WorkPackage._parse_project .null (.obj l) = .ok (some ⟨.int i, .str "", nm, .bool true, .bool false, .str "", none, none⟩) := by
  have hln : l ≠ [] := by
    intro hl
    rw [hl] at hhref
    simp [dget] at hhref
  have htr : truthy (.obj l) = true := by
    cases l with
    | nil => exact absurd rfl hln
    | cons a t => simp [truthy]
  unfold WorkPackage._parse_project
  simp only [truthy, htr, if_true, if_false, Bool.false_eq_true, ite_false]
  simp [dgetD, hhref, hex, hnz, htitle, bind, Except.bind, pure, Except.pure, htr]
  exact hln

theorem parse_user_link_only (l : Dict) (i : Int) (nm : Json) (href : String)
    (hnz : i ≠ 0)
    (hhref : dget l "href" = some (.str href))
    (hex : WorkPackage._extract_id_from_href (.str href) = .ok (some i))
    (htitle : dget l "title" = some nm) :
    WorkPackage._parse_user .null (.obj l) = .ok (some ⟨.int i, nm, .null, .null⟩) := by
  have hln : l ≠ [] := by
    intro hl
    rw [hl] at hhref
    simp [dget] at hhref
  have htr : truthy (.obj l) = true := by
    cases l with
    | nil => exact absurd rfl hln
    | cons a t => simp [truthy]
  unfold WorkPackage._parse_user
  simp only [truthy, htr, if_true, if_false, Bool.false_eq_true, ite_false]
  simp [dgetD, hhref, hex, hnz, htitle, bind, Except.bind, pure, Except.pure, htr]
  exact hln

theorem parse_type_embedded (e : Dict) (lAny : Json) (x : WPType)
    (hne : e ≠ [])
    (hE : WorkPackage._parse_type (.obj e) lAny = .ok (some x)) :
    WPType.from_hal_json e = .ok x := by
  have htr : truthy (.obj e) = true := by
    cases e with
    | nil => exact absurd rfl hne
    | cons a t => simp [truthy]
  unfold WorkPackage._parse_type at hE
  simp only [htr, if_true] at hE
  cases hfe : WPType.from_hal_json e with
  | error err => rw [hfe] at hE; simp [Except.map] at hE
  | ok v => rw [hfe] at hE; simp [Except.map] at hE; rw [hE]

theorem parse_priority_embedded (e : Dict) (lAny : Json) (x : Priority)
    (hne : e ≠ [])
    (hE : WorkPackage._parse_priority (.obj e) lAny = .ok (some x)) :
    Priority.from_hal_json e = .ok x := by
  have htr : truthy (.obj e) = true := by
    cases e with
    | nil => exact absurd rfl hne
    | cons a t => simp [truthy]
  unfold WorkPackage._parse_priority at hE
  simp only [htr, if_true] at hE
  cases hfe : Priority.from_hal_json e with
  | error err => rw [hfe] at hE; simp [Except.map] at hE
  | ok v => rw [hfe] at hE; simp [Except.map] at hE; rw [hE]

theorem parse_project_embedded (e : Dict) (lAny : Json) (x : Project)
    (hne : e ≠ [])
    (hE : WorkPackage._parse_project (.obj e) lAny = .ok (some x)) :
    Project.from_hal_json e = .ok x := by
  have htr : truthy (.obj e) = true := by
    cases e with
    | nil => exact absurd rfl hne
    | cons a t => simp [truthy]
  unfold WorkPackage._parse_project at hE
  simp only [htr, if_true] at hE
  cases hfe : Project.from_hal_json e with
  | error err => rw [hfe] at hE; simp [Except.map] at hE
  | ok v => rw [hfe] at hE; simp [Except.map] at hE; rw [hE]

theorem parse_user_embedded (e : Dict) (lAny : Json) (x : User)
    (hne : e ≠ [])
    (hE : WorkPackage._parse_user (.obj e) lAny = .ok (some x)) :
    User.from_hal_json e = .ok x := by
  have htr : truthy (.obj e) = true := by
    cases e with
    | nil => exact absurd rfl hne
    | cons a t => simp [truthy]
  unfold WorkPackage._parse_user at hE
  simp only [htr, if_true] at hE
  cases hfe : User.from_hal_json e with
  | error err => rw [hfe] at hE; simp [Except.map] at hE
  | ok v => rw [hfe] at hE; simp [Except.map] at hE; rw [hE]

/-- C1 (amended): for every relation field (status, type, priority, project,
author/assignee user), decoding with the relation embedded (nonzero integer
id and a name) yields an entity whose id and name equal those of the entity
decoded from a link-only representation whose href has a numeric trailing
segment equal to the embedded id and whose title equals the embedded name;
fields a link cannot carry (color, identifier, email, avatar) are defaulted
in the degraded entity.  The embedded id must be nonzero: the link path
treats an id of 0 as falsy and yields no entity. -/
theorem dual_source_decoding :
    (∀ (e l : Dict) (lAny : Json) (i : Int) (nm : Json) (href : String) (x : Status),
      dget e "id" = some (.int i) → i ≠ 0 → dget e "name" = some nm →
      dget l "href" = some (.str href) →
      WorkPackage._extract_id_from_href (.str href) = .ok (some i) →
      dget l "title" = some nm →
      WorkPackage._parse_status (.obj e) lAny = .ok (some x) →
      ∃ x' : Status, WorkPackage._parse_status .null (.obj l) = .ok (some x')
        ∧ x.id = x'.id ∧ x.name = x'.name ∧ x'.color = .null)
  ∧ (∀ (e l : Dict) (lAny : Json) (i : Int) (nm : Json) (href : String) (x : WPType),
      dget e "id" = some (.int i) → i ≠ 0 → dget e "name" = some nm →
      dget l "href" = some (.str href) →
      WorkPackage._extract_id_from_href (.str href) = .ok (some i) →
      dget l "title" = some nm →
      WorkPackage._parse_type (.obj e) lAny = .ok (some x) →
      ∃ x' : WPType, WorkPackage._parse_type .null (.obj l) = .ok (some x')
        ∧ x.id = x'.id ∧ x.name = x'.name ∧ x'.color = .null)
  ∧ (∀ (e l : Dict) (lAny : Json) (i : Int) (nm : Json) (href : String) (x : Priority),
      dget e "id" = some (.int i) → i ≠ 0 → dget e "name" = some nm →
      dget l "href" = some (.str href) →
      WorkPackage._extract_id_from_href (.str href) = .ok (some i) →
      dget l "title" = some nm →
      WorkPackage._parse_priority (.obj e) lAny = .ok (some x) →
      ∃ x' : Priority, WorkPackage._parse_priority .null (.obj l) = .ok (some x')
        ∧ x.id = x'.id ∧ x.name = x'.name)
  ∧ (∀ (e l : Dict) (lAny : Json) (i : Int) (nm : Json) (href : String) (x : Project),
      dget e "id" = some (.int i) → i ≠ 0 → dget e "name" = some nm →
      dget l "href" = some (.str href) →
      WorkPackage._extract_id_from_href (.str href) = .ok (some i) →
      dget l "title" = some nm →
      WorkPackage._parse_project (.obj e) lAny = .ok (some x) →
      ∃ x' : Project, WorkPackage._parse_project .null (.obj l) = .ok (some x')
        ∧ x.id = x'.id ∧ x.name = x'.name ∧ x'.identifier = .str "")
  ∧ (∀ (e l : Dict) (lAny : Json) (i : Int) (nm : Json) (href : String) (x : User),
      dget e "id" = some (.int i) → i ≠ 0 → dget e "name" = some nm →
      dget l "href" = some (.str href) →
      WorkPackage._extract_id_from_href (.str href) = .ok (some i) →
      dget l "title" = some nm →
      WorkPackage._parse_user (.obj e) lAny = .ok (some x) →
      ∃ x' : User, WorkPackage._parse_user .null (.obj l) = .ok (some x')
        ∧ x.id = x'.id ∧ x.name = x'.name ∧ x'.email = .null ∧ x'.avatar_url = .null)
    := by
  refine ⟨?_, ?_, ?_, ?_, ?_⟩
  · intro e l lAny i nm href x hid hnz hname hhref hex htitle hE
    have hne : e ≠ [] := by
      intro h
      rw [h] at hid
      simp [dget] at hid
    obtain ⟨hi, hn⟩ := Status_from_hal_id_name e x _ _ hid hname
      (parse_status_embedded e lAny x hne hE)
    exact ⟨⟨.int i, nm, .null⟩, parse_status_link_only l i nm href hnz hhref hex htitle,
      by rw [hi], by rw [hn], rfl⟩
  · intro e l lAny i nm href x hid hnz hname hhref hex htitle hE
    have hne : e ≠ [] := by
      intro h
      rw [h] at hid
      simp [dget] at hid
    obtain ⟨hi, hn⟩ := WPType_from_hal_id_name e x _ _ hid hname
      (parse_type_embedded e lAny x hne hE)
    exact ⟨⟨.int i, nm, .null⟩, parse_type_link_only l i nm href hnz hhref hex htitle,
      by rw [hi], by rw [hn], rfl⟩
  · intro e l lAny i nm href x hid hnz hname hhref hex htitle hE
    have hne : e ≠ [] := by
      intro h
      rw [h] at hid
      simp [dget] at hid
    obtain ⟨hi, hn⟩ := Priority_from_hal_id_name e x _ _ hid hname
      (parse_priority_embedded e lAny x hne hE)
    exact ⟨⟨.int i, nm⟩, parse_priority_link_only l i nm href hnz hhref hex htitle,
      by rw [hi], by rw [hn]⟩
  · intro e l lAny i nm href x hid hnz hname hhref hex htitle hE
    have hne : e ≠ [] := by
      intro h
      rw [h] at hid
      simp [dget] at hid
    obtain ⟨hi, hn⟩ := Project_from_hal_id_name e x _ _ hid hname
      (parse_project_embedded e lAny x hne hE)
    exact ⟨⟨.int i, .str "", nm, .bool true, .bool false, .str "", none, none⟩, parse_project_link_only l i nm href hnz hhref hex htitle,
      by rw [hi], by rw [hn], rfl⟩
  · intro e l lAny i nm href x hid hnz hname hhref hex htitle hE
    have hne : e ≠ [] := by
      intro h
      rw [h] at hid
      simp [dget] at hid
    obtain ⟨hi, hn⟩ := User_from_hal_id_name e x _ _ hid hname
      (parse_user_embedded e lAny x hne hE)
    exact ⟨⟨.int i, nm, .null, .null⟩, parse_user_link_only l i nm href hnz hhref hex htitle,
      by rw [hi], by rw [hn], rfl, rfl⟩


/-- Witness for C1: status 3 named "Open" with a color decodes embedded, and
its link form (href `/api/v3/statuses/3`, title "Open") yields the same id
and name with no color. -/
theorem dual_source_decoding_witness :
    WorkPackage._parse_status
        (.obj [("id", Json.int 3), ("name", Json.str "Open"),
          ("color", Json.str "#35c53f")])
        (Json.obj [("href", Json.str "/api/v3/statuses/3")])
      = .ok (some ⟨.int 3, .str "Open", .str "#35c53f"⟩)
    ∧ (∃ x' : Status,
        WorkPackage._parse_status .null
            (.obj [("href", Json.str "/api/v3/statuses/3"),
              ("title", Json.str "Open")])
          = .ok (some x')
        ∧ (Json.int 3 : Json) = x'.id ∧ (Json.str "Open" : Json) = x'.name
        ∧ x'.color = .null) := by
  refine ⟨by decide, ?_⟩
  have h := dual_source_decoding.1
    [("id", Json.int 3), ("name", Json.str "Open"), ("color", Json.str "#35c53f")]
    [("href", Json.str "/api/v3/statuses/3"), ("title", Json.str "Open")]
    (Json.obj [("href", Json.str "/api/v3/statuses/3")]) 3 (Json.str "Open")
    "/api/v3/statuses/3" ⟨.int 3, .str "Open", .str "#35c53f"⟩
    (by decide) (by decide) (by decide) (by decide) (by decide) (by decide)
    (by decide)
  exact h

/-- Counterexample for C1 as stated: an embedded status with id 0 decodes to
an entity, but the link form with the same numeric trailing segment (0) and
title yields no entity at all, because `_parse_status` treats the extracted
id 0 as falsy. -/
theorem dual_source_decoding_counterexample :
    WorkPackage._parse_status (.obj [("id", Json.int 0), ("name", Json.str "New")])
        .null
      = .ok (some ⟨.int 0, .str "New", .null⟩)
    ∧ WorkPackage._extract_id_from_href (.str "/api/v3/statuses/0") = .ok (some 0)
    ∧ WorkPackage._parse_status .null
        (.obj [("href", Json.str "/api/v3/statuses/0"), ("title", Json.str "New")])
      = .ok none :=
  ⟨by decide, by decide, by decide⟩

/-- C4 (amended): every entity decoder succeeds, defaulting all optional
fields, on an input holding exactly its required fields; a missing `id`
raises `KeyError` (there is no dedicated `DecodeError` type) for every
decoder, a missing `name` fails Status/Type/Priority/Project, and a missing
`subject` fails WorkPackage — but User's `name` is optional (defaulting to
the empty string), so a User payload with only `id` succeeds. -/
theorem decoders_required_fields :
    (∀ v w : Json, Status.from_hal_json [("id", v), ("name", w)] = .ok ⟨v, w, .null⟩)
    ∧ (∀ v w : Json, WPType.from_hal_json [("id", v), ("name", w)] = .ok ⟨v, w, .null⟩)
    ∧ (∀ v w : Json, Priority.from_hal_json [("id", v), ("name", w)] = .ok ⟨v, w⟩)
    ∧ (∀ v w : Json, Project.from_hal_json [("id", v), ("name", w)]
        = .ok ⟨v, .str "", w, .bool true, .bool false, .str "", none, none⟩)
    ∧ (∀ v : Json, User.from_hal_json [("id", v)] = .ok ⟨v, .str "", .null, .null⟩)
    ∧ (∀ v w : Json, WorkPackage.from_hal_json [("id", v), ("subject", w)]
        = .ok { id := v, subject := w })
    ∧ (∀ d : Dict, dget d "id" = none →
        Status.from_hal_json d = .error (.keyError "id")
        ∧ WPType.from_hal_json d = .error (.keyError "id")
        ∧ Priority.from_hal_json d = .error (.keyError "id")
        ∧ User.from_hal_json d = .error (.keyError "id")
        ∧ (Project.from_hal_json d).isOk = false
        ∧ (WorkPackage.from_hal_json d).isOk = false)
    ∧ (∀ d : Dict, dget d "name" = none →
        (Status.from_hal_json d).isOk = false
        ∧ (WPType.from_hal_json d).isOk = false
        ∧ (Priority.from_hal_json d).isOk = false
        ∧ (Project.from_hal_json d).isOk = false)
    ∧ (∀ d : Dict, dget d "subject" = none →
        (WorkPackage.from_hal_json d).isOk = false) := by
  refine ⟨fun v w => rfl, fun v w => rfl, fun v w => rfl, fun v w => rfl,
    fun v => rfl, fun v w => rfl, ?_, ?_, ?_⟩
  · intro d h
    refine ⟨?_, ?_, ?_, ?_, ?_, ?_⟩ <;>
    · first
      | (unfold Status.from_hal_json pyGetItem
         simp [bind, Except.bind, h])
      | (unfold WPType.from_hal_json pyGetItem
         simp [bind, Except.bind, h])
      | (unfold Priority.from_hal_json pyGetItem
         simp [bind, Except.bind, h])
      | (unfold User.from_hal_json pyGetItem
         simp [bind, Except.bind, h])
      | (unfold Project.from_hal_json pyGetItem
         simp only [bind, Except.bind]
         repeat' split
         all_goals simp_all [Except.isOk, Except.toBool])
      | (unfold WorkPackage.from_hal_json pyGetItem
         simp only [bind, Except.bind]
         repeat' split
         all_goals simp_all [Except.isOk, Except.toBool])
  · intro d h
    refine ⟨?_, ?_, ?_, ?_⟩ <;>
    · first
      | (unfold Status.from_hal_json pyGetItem
         simp only [bind, Except.bind]
         repeat' split
         all_goals simp_all [Except.isOk, Except.toBool])
      | (unfold WPType.from_hal_json pyGetItem
         simp only [bind, Except.bind]
         repeat' split
         all_goals simp_all [Except.isOk, Except.toBool])
      | (unfold Priority.from_hal_json pyGetItem
         simp only [bind, Except.bind]
         repeat' split
         all_goals simp_all [Except.isOk, Except.toBool])
      | (unfold Project.from_hal_json pyGetItem
         simp only [bind, Except.bind]
         repeat' split
         all_goals simp_all [Except.isOk, Except.toBool])
  · intro d h
    unfold WorkPackage.from_hal_json pyGetItem
    simp only [bind, Except.bind]
    repeat' split
    all_goals simp_all [Except.isOk, Except.toBool]

/-- Witness for C4: concrete payloads missing `id`, `name` and `subject`
fail as described, with the `KeyError` visible for the simple decoders. -/
theorem decoders_required_fields_witness :
    dget [("name", Json.str "x")] "id" = none
    ∧ Status.from_hal_json [("name", Json.str "x")] = .error (.keyError "id")
    ∧ User.from_hal_json [("name", Json.str "x")] = .error (.keyError "id")
    ∧ dget [("id", Json.int 5), ("color", Json.str "#fff")] "name" = none
    ∧ (Status.from_hal_json [("id", Json.int 5), ("color", Json.str "#fff")]).isOk
        = false
    ∧ dget [("id", Json.int 7)] "subject" = none
    ∧ (WorkPackage.from_hal_json [("id", Json.int 7)]).isOk = false := by
  have h1 := decoders_required_fields.2.2.2.2.2.2.1 [("name", Json.str "x")]
    (by decide)
  have h2 := decoders_required_fields.2.2.2.2.2.2.2.1
    [("id", Json.int 5), ("color", Json.str "#fff")] (by decide)
  have h3 := decoders_required_fields.2.2.2.2.2.2.2.2 [("id", Json.int 7)]
    (by decide)
  exact ⟨by decide, h1.1, h1.2.2.2.1, by decide, h2.1, by decide, h3⟩

/-- Counterexample for C4 as stated: `{"id": 5}` has no `name`, yet
`User.from_hal_json` succeeds (with an empty name) instead of signalling a
decode failure. -/
theorem decoders_required_fields_counterexample :
    dget [("id", Json.int 5)] "name" = none
    ∧ User.from_hal_json [("id", Json.int 5)] = .ok ⟨.int 5, .str "", .null, .null⟩
    ∧ (User.from_hal_json [("id", Json.int 5)]).isOk = true :=
  ⟨by decide, by decide, by decide⟩

end OP
